import Mathlib

/-!
Shallow embedding of the RBAC / authentication core of the nexus-hub
backend (`backend/core/security/permissions.py`, `password.py`, `jwt.py`,
`backend/core/exceptions/errors.py`, `backend/domains/crm/service.py`,
`backend/domains/identity/dependencies.py`), together with theorems
settling the specification claims about it.

Machine integers do not overflow in any of the embedded code paths
(timestamps and ids are unbounded Python ints), so `Int`/`Nat` are used
directly.  Python exceptions are embedded as `Except`/sum results.
-/

namespace NexusHub

/-! ## Permission catalog (`core/security/permissions.py`) -/

/-- Closed enumeration of system permissions, in source declaration order
(`class Permission(str, Enum)`). -/
inductive Permission
  | USER_READ | USER_WRITE | USER_DELETE
  | CONTACT_READ | CONTACT_WRITE | CONTACT_DELETE
  | COMPANY_READ | COMPANY_WRITE | COMPANY_DELETE
  | DEAL_READ | DEAL_WRITE | DEAL_DELETE
  | PROJECT_READ | PROJECT_WRITE | PROJECT_DELETE
  | TASK_READ | TASK_WRITE | TASK_DELETE
  | TEAM_READ | TEAM_WRITE | TEAM_DELETE
  | AI_USE | AI_ADMIN
  | PLUGIN_READ | PLUGIN_INSTALL | PLUGIN_MANAGE
  | ADMIN_READ | ADMIN_WRITE | SETTINGS_MANAGE | AUDIT_READ
  deriving DecidableEq, Fintype, Repr

/-- System roles (`class Role(str, Enum)`). -/
inductive Role
  | SUPER_ADMIN | ADMIN | MANAGER | DEVELOPER | USER | GUEST
  deriving DecidableEq, Fintype, Repr

/-- String value of each role member, as declared in the Python enum. -/
def Role.value : Role → String
  | .SUPER_ADMIN => "super_admin"
  | .ADMIN => "admin"
  | .MANAGER => "manager"
  | .DEVELOPER => "developer"
  | .USER => "user"
  | .GUEST => "guest"

/-- Embedding of the Python enum call `Role(role_str)`: resolve a free-form
string to the role whose value it equals, or `none` where Python raises
`ValueError`. -/
def Role.ofString? (s : String) : Option Role :=
  if s = "super_admin" then some .SUPER_ADMIN
  else if s = "admin" then some .ADMIN
  else if s = "manager" then some .MANAGER
  else if s = "developer" then some .DEVELOPER
  else if s = "user" then some .USER
  else if s = "guest" then some .GUEST
  else none

/-- The value `list(Permission)`: every permission, in declaration order. -/
def Permission.all : List Permission :=
  [.USER_READ, .USER_WRITE, .USER_DELETE,
   .CONTACT_READ, .CONTACT_WRITE, .CONTACT_DELETE,
   .COMPANY_READ, .COMPANY_WRITE, .COMPANY_DELETE,
   .DEAL_READ, .DEAL_WRITE, .DEAL_DELETE,
   .PROJECT_READ, .PROJECT_WRITE, .PROJECT_DELETE,
   .TASK_READ, .TASK_WRITE, .TASK_DELETE,
   .TEAM_READ, .TEAM_WRITE, .TEAM_DELETE,
   .AI_USE, .AI_ADMIN,
   .PLUGIN_READ, .PLUGIN_INSTALL, .PLUGIN_MANAGE,
   .ADMIN_READ, .ADMIN_WRITE, .SETTINGS_MANAGE, .AUDIT_READ]

/-- The `ROLE_PERMISSIONS` dict.  It has an entry for every role, so it is
embedded as a total function; each list is transcribed in source order. -/
def ROLE_PERMISSIONS : Role → List Permission
  | .SUPER_ADMIN => Permission.all
  | .ADMIN =>
      [.USER_READ, .USER_WRITE,
       .CONTACT_READ, .CONTACT_WRITE, .CONTACT_DELETE,
       .COMPANY_READ, .COMPANY_WRITE, .COMPANY_DELETE,
       .DEAL_READ, .DEAL_WRITE, .DEAL_DELETE,
       .PROJECT_READ, .PROJECT_WRITE, .PROJECT_DELETE,
       .TASK_READ, .TASK_WRITE, .TASK_DELETE,
       .TEAM_READ, .TEAM_WRITE, .TEAM_DELETE,
       .AI_USE, .PLUGIN_READ, .PLUGIN_INSTALL,
       .ADMIN_READ, .SETTINGS_MANAGE, .AUDIT_READ]
  | .MANAGER =>
      [.USER_READ,
       .CONTACT_READ, .CONTACT_WRITE,
       .COMPANY_READ, .COMPANY_WRITE,
       .DEAL_READ, .DEAL_WRITE,
       .PROJECT_READ, .PROJECT_WRITE,
       .TASK_READ, .TASK_WRITE,
       .TEAM_READ, .TEAM_WRITE,
       .AI_USE, .PLUGIN_READ]
  | .DEVELOPER =>
      [.USER_READ, .CONTACT_READ, .COMPANY_READ, .DEAL_READ,
       .PROJECT_READ, .PROJECT_WRITE,
       .TASK_READ, .TASK_WRITE,
       .TEAM_READ, .AI_USE, .PLUGIN_READ]
  | .USER =>
      [.USER_READ, .CONTACT_READ, .COMPANY_READ, .DEAL_READ,
       .PROJECT_READ, .TASK_READ, .TASK_WRITE,
       .TEAM_READ, .AI_USE]
  | .GUEST =>
      [.PROJECT_READ, .TASK_READ]

/-- Embedding of `get_role_permissions`: `ROLE_PERMISSIONS.get(role, [])`.
The dict covers all six roles, so the `[]` default is unreachable and the
lookup is the total function itself. -/
def get_role_permissions (role : Role) : List Permission :=
  ROLE_PERMISSIONS role

/-- Embedding of `has_permission`: iterate over the role strings; resolve
each via `Role(role_str)`, skipping unresolvable names (`except ValueError:
continue`); return `True` at the first role whose permission list contains
the required permission, else `False` after the loop. -/
def has_permission (user_roles : List String) (required_permission : Permission) :
    Bool :=
  match user_roles with
  | [] => false
  | role_str :: rest =>
      match Role.ofString? role_str with
      | some role =>
          if required_permission ∈ get_role_permissions role then true
          else has_permission rest required_permission
      | none => has_permission rest required_permission

/-- Accumulator loop of `get_user_permissions`: starting from the running
set, fold each resolvable role's permissions in with `set.update`,
skipping unresolvable names. -/
def get_user_permissions_loop (acc : Finset Permission) :
    List String → Finset Permission
  | [] => acc
  | role_str :: rest =>
      match Role.ofString? role_str with
      | some role =>
          get_user_permissions_loop (acc ∪ (get_role_permissions role).toFinset) rest
      | none => get_user_permissions_loop acc rest

/-- Embedding of `get_user_permissions`: the union, as a set, of the
permission lists of all resolvable roles, built by the loop starting from
the empty set. -/
def get_user_permissions (user_roles : List String) : Finset Permission :=
  get_user_permissions_loop ∅ user_roles

/-! ## Exception hierarchy (`core/exceptions/errors.py`)

Every `NexusHubException` carries a message, an HTTP status code and a
details map; subclasses are embedded as the constructor functions the
Python `__init__` bodies compute. -/

/-- Embedding of a raised `NexusHubException` value: its message, status
code and details map (details values kept as strings). -/
structure NexusError where
  message : String
  status_code : Nat
  details : List (String × String)
  deriving DecidableEq, Repr

/-- Embedding of `AuthenticationError(message, details)`: status code 401. -/
def AuthenticationError (message : String)
    (details : List (String × String) := []) : NexusError :=
  ⟨message, 401, details⟩

/-- Embedding of `AuthorizationError(message, details)`: status code 403. -/
def AuthorizationError (message : String)
    (details : List (String × String) := []) : NexusError :=
  ⟨message, 403, details⟩

/-- Embedding of `NotFoundError(resource, details)`: message is
`f"{resource} not found"`, status code 404. -/
def NotFoundError (resource : String)
    (details : List (String × String) := []) : NexusError :=
  ⟨resource ++ " not found", 404, details⟩

/-! ## Password credential verifier (`core/security/password.py`)

The Argon2 backend (`argon2.PasswordHasher`) is an external library; it is
embedded as an abstract backend whose operations either return normally or
raise one of the exceptions the library documents for them
(`VerifyMismatchError`, `VerificationError`, `InvalidHashError`). -/

/-- Exceptions the Argon2 library raises from `PasswordHasher.verify` and
`PasswordHasher.check_needs_rehash`. -/
inductive Argon2Exc
  | VerifyMismatchError
  | VerificationError
  | InvalidHashError
  deriving DecidableEq, Repr

/-- Abstract Argon2 backend: the behaviour of the process-wide
`PasswordHasher` instance `ph` on given (hash, password) inputs. -/
structure Argon2Backend where
  verify : String → String → Except Argon2Exc Unit
  check_needs_rehash : String → Except Argon2Exc Bool

/-- Embedding of `verify_password`: inside one `try`, call
`ph.verify(hashed, plain)`, then `ph.check_needs_rehash(hashed)` (whose
boolean result is discarded — the `if` body is `pass`), and return `True`;
any of the three caught Argon2 exceptions from either call yields
`False`.  The function is total: no exception escapes to the caller. -/
def verify_password (ph : Argon2Backend)
    (plain_password hashed_password : String) : Bool :=
  match ph.verify hashed_password plain_password with
  | .error _ => false
  | .ok _ =>
      match ph.check_needs_rehash hashed_password with
      | .error _ => false
      | .ok _ => true

/-- Embedding of `needs_rehash`: return `ph.check_needs_rehash(hashed)`,
and on any exception (`except Exception`) return `True`. -/
def needs_rehash (ph : Argon2Backend) (hashed_password : String) : Bool :=
  match ph.check_needs_rehash hashed_password with
  | .ok v => v
  | .error _ => true

/-! ## Token issuer / verifier (`core/security/jwt.py`)

JWT claim values appearing in this codebase are strings and (after the
jose library's datetime-to-timestamp conversion) integer timestamps, so a
claim value is a string or an integer; timestamps are UTC seconds
embedded as `Int`.  A claim map is an association list with unique keys
maintained by `Claims.set` (dict update semantics).  The process clock
`datetime.now(timezone.utc)` is passed explicitly as `now` (the spec fixes
second granularity and a shared clock, so one `now` serves a call). -/

/-- JSON-ish claim value: the payload values this codebase puts in
tokens (`sub`, `type` strings; `exp`, `iat` integer timestamps). -/
inductive JValue
  | str (s : String)
  | num (n : Int)
  deriving DecidableEq, Repr

/-- Python truthiness of a claim value (`if value:`): nonzero number,
nonempty string. -/
def JValue.truthy : JValue → Bool
  | .num n => n ≠ 0
  | .str s => s ≠ ""

/-- Decimal digit value of a character, or `none`. -/
def pyDigit? (c : Char) : Option Nat :=
  if c = '0' then some 0 else if c = '1' then some 1
  else if c = '2' then some 2 else if c = '3' then some 3
  else if c = '4' then some 4 else if c = '5' then some 5
  else if c = '6' then some 6 else if c = '7' then some 7
  else if c = '8' then some 8 else if c = '9' then some 9
  else none

/-- Left-to-right decimal accumulation of a digit string. -/
def pyDigitsAux (acc : Nat) : List Char → Option Nat
  | [] => some acc
  | c :: rest =>
      match pyDigit? c with
      | some d => pyDigitsAux (acc * 10 + d) rest
      | none => none

/-- Embedding of Python `int(value)` on a claim value: an int is itself; a
string parses as an optionally signed decimal numeral, anything else
raises `ValueError` (`none`). -/
def pyInt : JValue → Option Int
  | .num n => some n
  | .str s =>
      match s.toList with
      | [] => none
      | '-' :: rest =>
          match rest with
          | [] => none
          | _ => (pyDigitsAux 0 rest).map (fun n => -(n : Int))
      | cs => (pyDigitsAux 0 cs).map (fun n => (n : Int))

/-- Claim maps: association lists with dict lookup/update semantics. -/
abbrev Claims := List (String × JValue)

/-- Dict lookup `claims.get(k)`. -/
def Claims.get (c : Claims) (k : String) : Option JValue :=
  match c with
  | [] => none
  | (k', v) :: rest => if k' = k then some v else Claims.get rest k

/-- Dict update `claims[k] = v`: overwrite the existing entry for `k`, or
append a new one. -/
def Claims.set (c : Claims) (k : String) (v : JValue) : Claims :=
  match c with
  | [] => [(k, v)]
  | (k', v') :: rest =>
      if k' = k then (k, v) :: rest else (k', v') :: Claims.set rest k v

/-- Embedding of the output of `jose.jwt.encode(claims, key, algorithm)`:
a signed structure determined by its claim set, signing key and
algorithm. -/
structure Token where
  claims : Claims
  key : String
  alg : String
  deriving DecidableEq, Repr

/-- A token *string* as the verifier receives it: either the encoding of a
signed token, or any other string (including the empty string), which no
key decodes. -/
inductive TokenStr
  | encoded (t : Token)
  | malformed (s : String)
  deriving DecidableEq, Repr

/-- Python `not token` on the token string: an encoded token string is
never empty (it has three dot-separated parts), so only a malformed empty
string is falsy. -/
def TokenStr.isEmptyStr : TokenStr → Bool
  | .encoded _ => false
  | .malformed s => s.isEmpty

/-- Exceptions raised by `jose.jwt.decode` (all subclasses of `JWTError`):
signature/structure failure, expired `exp`, immature `nbf`, or a
malformed/unacceptable claim. -/
inductive JoseExc
  | JWTError
  | ExpiredSignatureError
  | ImmatureSignatureError
  | JWTClaimsError
  deriving DecidableEq, Repr

/-- Printable reason of a jose exception (used for the `details` map). -/
def JoseExc.msg : JoseExc → String
  | .JWTError => "Signature verification failed."
  | .ExpiredSignatureError => "Signature has expired."
  | .ImmatureSignatureError => "The token is not yet valid (nbf)"
  | .JWTClaimsError => "Invalid claim format in token."

/-- jose `_validate_iat`: an `iat` claim, when present, must `int()`-coerce
(an integer, or a decimal digit string), else `JWTClaimsError`.  No
freshness check is made. -/
def validate_iat (claims : Claims) : Except JoseExc Unit :=
  match claims.get "iat" with
  | none => .ok ()
  | some v =>
      match pyInt v with
      | some _ => .ok ()
      | none => .error .JWTClaimsError

/-- jose `_validate_nbf` with zero leeway: an `nbf` claim, when present,
must `int()`-coerce, and a value strictly after `now` raises
`ImmatureSignatureError`. -/
def validate_nbf (claims : Claims) (now : Int) : Except JoseExc Unit :=
  match claims.get "nbf" with
  | none => .ok ()
  | some v =>
      match pyInt v with
      | none => .error .JWTClaimsError
      | some nbf => if nbf > now then .error .ImmatureSignatureError else .ok ()

/-- jose `_validate_exp` with zero leeway: an `exp` claim, when present,
must `int()`-coerce, and a value strictly before `now` raises
`ExpiredSignatureError` — `exp == now` is accepted. -/
def validate_exp (claims : Claims) (now : Int) : Except JoseExc Unit :=
  match claims.get "exp" with
  | none => .ok ()
  | some v =>
      match pyInt v with
      | none => .error .JWTClaimsError
      | some e => if e < now then .error .ExpiredSignatureError else .ok ()

/-- jose `_validate_aud` as called by this codebase (no `audience`
argument): an absent `aud` claim passes, but any present `aud` raises
`JWTClaimsError` — a string value becomes a one-element audience list not
containing `None` ("Invalid audience"), a non-string/non-list value is
"Invalid claim format in token". -/
def validate_aud (claims : Claims) : Except JoseExc Unit :=
  match claims.get "aud" with
  | none => .ok ()
  | some _ => .error .JWTClaimsError

/-- jose `_validate_sub` with no `subject` argument: a `sub` claim, when
present, must be a string ("Subject must be a string."). -/
def validate_sub (claims : Claims) : Except JoseExc Unit :=
  match claims.get "sub" with
  | none => .ok ()
  | some (.str _) => .ok ()
  | some (.num _) => .error .JWTClaimsError

/-- jose `_validate_jti`: a `jti` claim, when present, must be a string. -/
def validate_jti (claims : Claims) : Except JoseExc Unit :=
  match claims.get "jti" with
  | none => .ok ()
  | some (.str _) => .ok ()
  | some (.num _) => .error .JWTClaimsError

/-- jose `_validate_at_hash` as called by this codebase (no `access_token`
argument): a present `at_hash` claim raises `JWTClaimsError` ("No
access_token provided to compare against at_hash claim."). -/
def validate_at_hash (claims : Claims) : Except JoseExc Unit :=
  match claims.get "at_hash" with
  | none => .ok ()
  | some _ => .error .JWTClaimsError

/-- Embedding of `jose.jwt.decode(token, key, algorithms)` as this
codebase calls it (no audience/issuer/subject/access_token arguments, all
`verify_*` options at their defaults): fails with `JWTError` unless the
token was signed with `key` under an accepted algorithm, then runs the
standard-claim validators in jose's order — `iat`, `nbf`, `exp`, `aud`,
`iss` (a no-op with no issuer argument), `sub`, `jti`, `at_hash` — and on
success returns the claim map. -/
def jose_decode (token : TokenStr) (key : String) (algorithms : List String)
    (now : Int) : Except JoseExc Claims :=
  match token with
  | .malformed _ => .error .JWTError
  | .encoded t =>
      if t.key = key ∧ t.alg ∈ algorithms then
        match validate_iat t.claims with
        | .error e => .error e
        | .ok _ =>
          match validate_nbf t.claims now with
          | .error e => .error e
          | .ok _ =>
            match validate_exp t.claims now with
            | .error e => .error e
            | .ok _ =>
              match validate_aud t.claims with
              | .error e => .error e
              | .ok _ =>
                match validate_sub t.claims with
                | .error e => .error e
                | .ok _ =>
                  match validate_jti t.claims with
                  | .error e => .error e
                  | .ok _ =>
                    match validate_at_hash t.claims with
                    | .error e => .error e
                    | .ok _ => .ok t.claims
      else .error .JWTError

/-- Config fields of `Settings` that the security core reads. -/
structure Settings where
  SECRET_KEY : String
  ALGORITHM : String
  ACCESS_TOKEN_EXPIRE_MINUTES : Int
  REFRESH_TOKEN_EXPIRE_DAYS : Int

/-- Embedding of `create_access_token(data, expires_delta)` at clock
`now`: copy `data`, compute `expire = now + expires_delta` when the given
timedelta is truthy (a zero timedelta is falsy in Python, so it falls back
to the default like `None` does), else `now` plus the configured minutes;
overwrite `exp`, `iat`, `type="access"`; sign with the configured secret
and algorithm. -/
def create_access_token (st : Settings) (data : Claims)
    (expires_delta : Option Int) (now : Int) : Token :=
  let expire : Int :=
    match expires_delta with
    | some d =>
        if d ≠ 0 then now + d
        else now + st.ACCESS_TOKEN_EXPIRE_MINUTES * 60
    | none => now + st.ACCESS_TOKEN_EXPIRE_MINUTES * 60
  let to_encode :=
    ((data.set "exp" (.num expire)).set "iat" (.num now)).set "type" (.str "access")
  ⟨to_encode, st.SECRET_KEY, st.ALGORITHM⟩

/-- Embedding of `create_refresh_token(data, expires_delta)`: identical
shape with `type="refresh"` and a default ttl in days. -/
def create_refresh_token (st : Settings) (data : Claims)
    (expires_delta : Option Int) (now : Int) : Token :=
  let expire : Int :=
    match expires_delta with
    | some d =>
        if d ≠ 0 then now + d
        else now + st.REFRESH_TOKEN_EXPIRE_DAYS * 86400
    | none => now + st.REFRESH_TOKEN_EXPIRE_DAYS * 86400
  let to_encode :=
    ((data.set "exp" (.num expire)).set "iat" (.num now)).set "type" (.str "refresh")
  ⟨to_encode, st.SECRET_KEY, st.ALGORITHM⟩

/-- Embedding of `decode_token`: `jose.jwt.decode` with the configured
secret and algorithm; any `JWTError` becomes
`AuthenticationError("Invalid or expired token", {"error": str(e)})`. -/
def decode_token (st : Settings) (token : TokenStr) (now : Int) :
    Except NexusError Claims :=
  match jose_decode token st.SECRET_KEY [st.ALGORITHM] now with
  | .ok payload => .ok payload
  | .error e =>
      .error (AuthenticationError "Invalid or expired token" [("error", e.msg)])

/-- Python rendering of `payload.get("type")` inside the f-string of the
type-mismatch message. -/
def pyShow : Option JValue → String
  | none => "None"
  | some (.str s) => s
  | some (.num n) => toString n

/-- Embedding of `verify_token_type(payload, expected_type)`: read
`payload.get("type")` and raise `AuthenticationError` unless it equals the
expected type string. -/
def verify_token_type (payload : Claims) (expected_type : String) :
    Except NexusError Unit :=
  let token_type := payload.get "type"
  if token_type = some (.str expected_type) then .ok ()
  else
    .error (AuthenticationError
      ("Invalid token type. Expected " ++ expected_type ++ ", got "
        ++ pyShow token_type))

/-- Embedding of `get_token_expiry`: decode the token; on
`AuthenticationError` return `None`; otherwise read `payload.get("exp")`
and return it when truthy — the falsy timestamp `0` and an absent `exp`
both yield `None`.  Every token this module issues carries an integer
`exp`; the remaining corner, a digit-string `exp` in a token hand-signed
with the server secret (which the decoder `int()`-coerces but
`datetime.fromtimestamp` then rejects with an uncaught `TypeError`), is
folded to `None` here rather than modelled as a crash. -/
def get_token_expiry (st : Settings) (token : TokenStr) (now : Int) :
    Option Int :=
  match decode_token st token now with
  | .error _ => none
  | .ok payload =>
      match payload.get "exp" with
      | some (.num e) => if e ≠ 0 then some e else none
      | _ => none

/-- Embedding of `is_token_expired`: `True` when `get_token_expiry` gives
`None`, else `expiry < now` (strict comparison in the source). -/
def is_token_expired (st : Settings) (token : TokenStr) (now : Int) : Bool :=
  match get_token_expiry st token now with
  | none => true
  | some expiry => expiry < now

/-! ## Identity dependency (`domains/identity/dependencies.py`) -/

/-- Outcome of `get_current_user_id`: a user id, a raised
`AuthenticationError`, or an uncaught `ValueError` from `int(user_id)` on
a non-numeric subject. -/
inductive UserIdResult
  | ok (user_id : Int)
  | authError (e : NexusError)
  | valueError
  deriving DecidableEq, Repr

/-- Embedding of `get_current_user_id(token)`: raise on a falsy (empty)
token string; `decode_token`; read `payload.get("sub")` and raise
`AuthenticationError("Invalid token payload")` when it is absent or
falsy; finally return `int(user_id)`.  No token-type verification is
performed. -/
def get_current_user_id (st : Settings) (token : TokenStr) (now : Int) :
    UserIdResult :=
  if token.isEmptyStr then .authError (AuthenticationError "Not authenticated")
  else
    match decode_token st token now with
    | .error e => .authError e
    | .ok payload =>
        match payload.get "sub" with
        | none => .authError (AuthenticationError "Invalid token payload")
        | some v =>
            if v.truthy then
              match pyInt v with
              | some n => .ok n
              | none => .valueError
            else .authError (AuthenticationError "Invalid token payload")

/-! ## Tenant-scoped entity load (`domains/crm/service.py`) -/

/-- The fields of a `Company` row that `get_company` inspects; ids are
UUIDs, embedded as `Nat`. -/
structure Company where
  id : Nat
  tenant_id : Nat
  deriving DecidableEq, Repr

/-- Embedding of `CompanyService.get_company(company_id, tenant_id)` over
an abstract repository lookup `repo_get` (`self.repository.get`, which
returns the row or `None`): raise `NotFoundError("Company not found")`
when the row is absent or its `tenant_id` differs from the caller's. -/
def get_company (repo_get : Nat → Option Company)
    (company_id tenant_id : Nat) : Except NexusError Company :=
  match repo_get company_id with
  | none => .error (NotFoundError "Company not found")
  | some company =>
      if company.tenant_id ≠ tenant_id then
        .error (NotFoundError "Company not found")
      else .ok company

/-- Concrete deployment-shaped settings used to instantiate witnesses:
the source requires a secret of at least 32 characters and defaults to
HS256, 60-minute access tokens and 30-day refresh tokens. -/
def testSettings : Settings :=
  ⟨"test-secret-key-0123456789abcdef", "HS256", 60, 30⟩

/-! ## Helper lemmas -/

/-- Dict update then lookup of the same key yields the new value. -/
theorem Claims.get_set_same (c : Claims) (k : String) (v : JValue) :
    (c.set k v).get k = some v := by
  induction c with
  | nil => simp [Claims.set, Claims.get]
  | cons hd rest ih =>
      by_cases h : hd.1 = k
      · simp [Claims.set, h, Claims.get]
      · simp [Claims.set, h, Claims.get, ih]

/-- Dict update leaves lookups of other keys unchanged. -/
theorem Claims.get_set_ne (c : Claims) (k k' : String) (v : JValue)
    (h : k' ≠ k) : (c.set k v).get k' = c.get k' := by
  induction c with
  | nil => simp [Claims.set, Claims.get, h, Ne.symm h]
  | cons hd rest ih =>
      by_cases hk : hd.1 = k
      · subst hk
        simp [Claims.set, Claims.get, h, Ne.symm h]
      · by_cases hk' : hd.1 = k'
        · subst hk'
          simp [Claims.set, hk, Claims.get, h]
        · simp [Claims.set, hk, Claims.get, hk', ih]

/-- Membership in the `get_user_permissions` accumulator loop: a
permission is collected iff it was already in the accumulator or some
role string in the remaining list resolves to a role granting it. -/
theorem mem_get_user_permissions_loop (p : Permission) :
    ∀ (l : List String) (acc : Finset Permission),
      p ∈ get_user_permissions_loop acc l ↔
        p ∈ acc ∨ ∃ s ∈ l, ∃ r, Role.ofString? s = some r ∧
          p ∈ get_role_permissions r := by
  intro l
  induction l with
  | nil => intro acc; simp [get_user_permissions_loop]
  | cons s rest ih =>
      intro acc
      cases h : Role.ofString? s with
      | none =>
          simp only [get_user_permissions_loop, h, ih, List.mem_cons]
          constructor
          · rintro (hacc | ⟨s', hs', r, hr, hp⟩)
            · exact Or.inl hacc
            · exact Or.inr ⟨s', Or.inr hs', r, hr, hp⟩
          · rintro (hacc | ⟨s', (rfl | hs'), r, hr, hp⟩)
            · exact Or.inl hacc
            · exact absurd hr (by simp [h])
            · exact Or.inr ⟨s', hs', r, hr, hp⟩
      | some role =>
          simp only [get_user_permissions_loop, h, ih, Finset.mem_union,
            List.mem_toFinset, List.mem_cons]
          constructor
          · rintro ((hacc | hrole) | ⟨s', hs', r, hr, hp⟩)
            · exact Or.inl hacc
            · exact Or.inr ⟨s, Or.inl rfl, role, h, hrole⟩
            · exact Or.inr ⟨s', Or.inr hs', r, hr, hp⟩
          · rintro (hacc | ⟨s', (rfl | hs'), r, hr, hp⟩)
            · exact Or.inl (Or.inl hacc)
            · rw [h] at hr
              exact Or.inl (Or.inr (by cases hr; exact hp))
            · exact Or.inr ⟨s', hs', r, hr, hp⟩

/-- Membership characterisation of `get_user_permissions`. -/
theorem mem_get_user_permissions (p : Permission) (l : List String) :
    p ∈ get_user_permissions l ↔
      ∃ s ∈ l, ∃ r, Role.ofString? s = some r ∧
        p ∈ get_role_permissions r := by
  simp [get_user_permissions, mem_get_user_permissions_loop]

/-- The per-role scan `has_permission` succeeds iff some role string in
the list resolves to a role whose permission list contains the required
permission. -/
theorem has_permission_eq_true_iff (l : List String) (p : Permission) :
    has_permission l p = true ↔
      ∃ s ∈ l, ∃ r, Role.ofString? s = some r ∧
        p ∈ get_role_permissions r := by
  induction l with
  | nil => simp [has_permission]
  | cons s rest ih =>
      cases h : Role.ofString? s with
      | none =>
          simp only [has_permission, h, ih, List.mem_cons]
          constructor
          · rintro ⟨s', hs', r, hr, hp⟩
            exact ⟨s', Or.inr hs', r, hr, hp⟩
          · rintro ⟨s', (rfl | hs'), r, hr, hp⟩
            · exact absurd hr (by simp [h])
            · exact ⟨s', hs', r, hr, hp⟩
      | some role =>
          by_cases hp : p ∈ get_role_permissions role
          · simp only [has_permission, h, if_pos hp, List.mem_cons]
            exact ⟨fun _ => ⟨s, Or.inl rfl, role, h, hp⟩, fun _ => trivial⟩
          · simp only [has_permission, h, if_neg hp, ih, List.mem_cons]
            constructor
            · rintro ⟨s', hs', r, hr, hpr⟩
              exact ⟨s', Or.inr hs', r, hr, hpr⟩
            · rintro ⟨s', (rfl | hs'), r, hr, hpr⟩
              · rw [h] at hr
                exact absurd (by cases hr; exact hpr) hp
              · exact ⟨s', hs', r, hr, hpr⟩

/-! ## Claim theorems -/

/-- C2: every permission of the closed `Permission` enumeration is a
member of the `super_admin` row of the role-to-permission table. -/
theorem super_admin_has_all_permissions :
    ∀ p : Permission, p ∈ get_role_permissions Role.SUPER_ADMIN := by
  decide

/-- C9: the static role-to-permission table forms an inclusion chain
guest ⊆ user ⊆ manager ⊆ admin ⊆ super_admin, and developer ⊆ manager;
by transitivity every permission of a lower role in the chain is granted
to each higher role. -/
theorem role_permissions_chain :
    (∀ p ∈ get_role_permissions Role.GUEST, p ∈ get_role_permissions Role.USER)
    ∧ (∀ p ∈ get_role_permissions Role.USER,
        p ∈ get_role_permissions Role.MANAGER)
    ∧ (∀ p ∈ get_role_permissions Role.MANAGER,
        p ∈ get_role_permissions Role.ADMIN)
    ∧ (∀ p ∈ get_role_permissions Role.ADMIN,
        p ∈ get_role_permissions Role.SUPER_ADMIN)
    ∧ (∀ p ∈ get_role_permissions Role.DEVELOPER,
        p ∈ get_role_permissions Role.MANAGER) := by
  decide

/-- Witness for C9 at a concrete permission: `PROJECT_READ`, granted to
`guest`, is granted to `user`. -/
theorem role_permissions_chain_witness :
    Permission.PROJECT_READ ∈ get_role_permissions Role.USER :=
  role_permissions_chain.1 Permission.PROJECT_READ (by decide)

/-- C3: `get_user_permissions` is total on arbitrary role-name lists (it
never raises — unresolvable names are skipped), and returns exactly the
union of the permission sets of the recognised roles: membership is
equivalent to some list element resolving to a role granting the
permission; a list whose only recognised name resolves to role `r`
yields exactly `r`'s permission set; a list with no recognised name
yields the empty set. -/
theorem get_user_permissions_spec :
    (∀ (l : List String) (p : Permission),
        p ∈ get_user_permissions l ↔
          ∃ s ∈ l, ∃ r, Role.ofString? s = some r ∧
            p ∈ get_role_permissions r)
    ∧ (∀ (l : List String) (s : String) (r : Role),
        s ∈ l → Role.ofString? s = some r →
        (∀ s' ∈ l, s' ≠ s → Role.ofString? s' = none) →
        get_user_permissions l = (get_role_permissions r).toFinset)
    ∧ (∀ l : List String, (∀ s ∈ l, Role.ofString? s = none) →
        get_user_permissions l = ∅) := by
  refine ⟨fun l p => mem_get_user_permissions p l, ?_, ?_⟩
  · intro l s r hs hr hall
    ext p
    rw [mem_get_user_permissions, List.mem_toFinset]
    constructor
    · rintro ⟨s', hs', r', hr', hp⟩
      by_cases he : s' = s
      · subst he
        rw [hr] at hr'
        cases hr'
        exact hp
      · exact absurd hr' (by simp [hall s' hs' he])
    · intro hp
      exact ⟨s, hs, r, hr, hp⟩
  · intro l hall
    ext p
    rw [mem_get_user_permissions]
    simp only [Finset.not_mem_empty, iff_false]
    rintro ⟨s, hs, r, hr, _⟩
    exact absurd hr (by simp [hall s hs])

/-- Witness for C3: a list holding the recognised name `"user"` next to
the unrecognised name `"craftsman"` yields exactly the `user` role's
permission set, and a list holding only unrecognised names yields the
empty set. -/
theorem get_user_permissions_spec_witness :
    get_user_permissions ["user", "craftsman"] =
      (get_role_permissions Role.USER).toFinset
    ∧ get_user_permissions ["craftsman"] = ∅ :=
  ⟨get_user_permissions_spec.2.1 ["user", "craftsman"] "user" Role.USER
      (by decide) (by decide) (by decide),
   get_user_permissions_spec.2.2 ["craftsman"] (by decide)⟩

/-- C8: the short-circuiting per-role scan `has_permission` returns true
exactly when the permission belongs to `get_user_permissions` of the same
list, and on a list of only unrecognised names it returns false (it is
total, so it never throws). -/
theorem has_permission_iff_effective :
    (∀ (l : List String) (p : Permission),
        has_permission l p = true ↔ p ∈ get_user_permissions l)
    ∧ (∀ (l : List String) (p : Permission),
        (∀ s ∈ l, Role.ofString? s = none) →
        has_permission l p = false) := by
  constructor
  · intro l p
    rw [has_permission_eq_true_iff, mem_get_user_permissions]
  · intro l p hall
    cases hb : has_permission l p with
    | false => rfl
    | true =>
        obtain ⟨s, hs, r, hr, _⟩ := (has_permission_eq_true_iff l p).mp hb
        exact absurd hr (by simp [hall s hs])

/-- Witness for C8: an all-unrecognised list denies any permission, and
the equivalence instantiates at the `user` role list. -/
theorem has_permission_iff_effective_witness :
    has_permission ["craftsman"] Permission.AI_USE = false
    ∧ (has_permission ["user"] Permission.CONTACT_READ = true ↔
        Permission.CONTACT_READ ∈ get_user_permissions ["user"]) :=
  ⟨has_permission_iff_effective.2 ["craftsman"] Permission.AI_USE (by decide),
   has_permission_iff_effective.1 ["user"] Permission.CONTACT_READ⟩

/-- C1: `get_company` returns a `NotFoundError` both when the repository
holds no row for the id and when the row exists with a different
`tenant_id`, and the raised error is the *same value* (same kind, status
code, message and details) in both cases, so a tenant mismatch is
indistinguishable from nonexistence.  The function is total: it returns
either the row or this error. -/
theorem get_company_notfound_uniform :
    ∀ (repo_get : Nat → Option Company) (company_id tenant_id : Nat),
      (repo_get company_id = none →
        get_company repo_get company_id tenant_id =
          .error (NotFoundError "Company not found"))
      ∧ (∀ c, repo_get company_id = some c → c.tenant_id ≠ tenant_id →
          get_company repo_get company_id tenant_id =
            .error (NotFoundError "Company not found")) := by
  intro repo_get company_id tenant_id
  constructor
  · intro h
    simp [get_company, h]
  · intro c hc hne
    simp [get_company, hc, hne]

/-- Witness for C1: over a one-row repository owning company 1 in tenant
7, a caller of tenant 9 gets the identical `NotFoundError` for the
nonexistent id 2 and for the cross-tenant id 1. -/
theorem get_company_notfound_uniform_witness :
    get_company (fun i => if i = 1 then some ⟨1, 7⟩ else none) 2 9 =
      .error (NotFoundError "Company not found")
    ∧ get_company (fun i => if i = 1 then some ⟨1, 7⟩ else none) 1 9 =
      .error (NotFoundError "Company not found") :=
  ⟨(get_company_notfound_uniform
      (fun i => if i = 1 then some ⟨1, 7⟩ else none) 2 9).1 (by decide),
   (get_company_notfound_uniform
      (fun i => if i = 1 then some ⟨1, 7⟩ else none) 1 9).2 ⟨1, 7⟩
      (by decide) (by decide)⟩

/-- C6: `verify_password` is a total boolean function (no exception
escapes to its caller), and every failure mode of the Argon2 backend —
`VerifyMismatchError` (mismatch), `InvalidHashError` (malformed stored
hash) and `VerificationError` (any other cryptographic verification
error) — collapses to the single result `false`. -/
theorem verify_password_false_on_error :
    ∀ (ph : Argon2Backend) (plain hashed : String) (e : Argon2Exc),
      ph.verify hashed plain = .error e →
      verify_password ph plain hashed = false := by
  intro ph plain hashed e h
  simp [verify_password, h]

/-- Witness for C6: a backend whose verification raises
`VerifyMismatchError` on every input makes `verify_password` return
`false`. -/
theorem verify_password_false_on_error_witness :
    verify_password
      ⟨fun _ _ => .error .VerifyMismatchError, fun _ => .ok false⟩
      "Sup3rSecret!" "stored-hash" = false :=
  verify_password_false_on_error
    ⟨fun _ _ => .error .VerifyMismatchError, fun _ => .ok false⟩
    "Sup3rSecret!" "stored-hash" .VerifyMismatchError rfl

/-- C10: `needs_rehash` is total and never raises: it forwards the
backend's boolean answer, and on any exception from inspecting the hash
it returns `true` instead of propagating the error. -/
theorem needs_rehash_total :
    ∀ (ph : Argon2Backend) (hashed : String),
      (∀ v, ph.check_needs_rehash hashed = .ok v →
        needs_rehash ph hashed = v)
      ∧ (∀ e, ph.check_needs_rehash hashed = .error e →
        needs_rehash ph hashed = true) := by
  intro ph hashed
  constructor
  · intro v h
    simp [needs_rehash, h]
  · intro e h
    simp [needs_rehash, h]

/-- Witness for C10: a backend that raises `InvalidHashError` while
inspecting a malformed hash makes `needs_rehash` return `true`. -/
theorem needs_rehash_total_witness :
    needs_rehash
      ⟨fun _ _ => .ok (), fun _ => .error .InvalidHashError⟩
      "not-an-argon2-hash" = true :=
  (needs_rehash_total
    ⟨fun _ _ => .ok (), fun _ => .error .InvalidHashError⟩
    "not-an-argon2-hash").2 .InvalidHashError rfl

/-- C4 counterexample: the claim quantifies over *every* claim map
containing a `sub` claim, but jose's standard-claim validation fails the
round trip for maps this application never builds — a numeric `sub`
(`{"sub": 42}`) raises "Subject must be a string.", and an `aud` claim
with no audience argument (`{"sub": "42", "aud": "x"}`) raises "Invalid
audience"; in both cases `decode_token` raises `AuthenticationError`
instead of succeeding.  (The application itself always issues string
subjects: `identity/service.py` builds `{"sub": str(user.id), ...}`.) -/
theorem access_token_round_trip_counterexample :
    (∃ e, decode_token testSettings
        (TokenStr.encoded (create_access_token testSettings
          [("sub", JValue.num 42)] (some 300) 1000)) 1000 = .error e)
    ∧ (∃ e, decode_token testSettings
        (TokenStr.encoded (create_access_token testSettings
          [("sub", JValue.str "42"), ("aud", JValue.str "x")] (some 300) 1000))
        1000 = .error e) :=
  ⟨⟨AuthenticationError "Invalid or expired token"
      [("error", "Invalid claim format in token.")], rfl⟩,
   ⟨AuthenticationError "Invalid or expired token"
      [("error", "Invalid claim format in token.")], rfl⟩⟩

/-- C4 (amended): round trip for claim maps that pass jose's
standard-claim validation — the `sub` claim is a string, no `aud` or
`at_hash` claim is present, an `nbf` claim (if any) is numeric and not in
the future, and a `jti` claim (if any) is a string.  Then decoding an
access token freshly issued from the map succeeds (with a non-negative
ttl; the configured default-minutes fallback, used when the passed
timedelta is falsy, is positive as in the shipped configuration), the
decoded payload carries the original `sub` and `type = "access"`, and
checking that payload against expected type `"refresh"` raises
`AuthenticationError`.  (`exp` and `iat` are overwritten by the issuer,
so they need no hypothesis.) -/
theorem access_token_round_trip :
    ∀ (st : Settings) (data : Claims) (sub_s : String) (ttl now : Int),
      0 ≤ ttl → 0 < st.ACCESS_TOKEN_EXPIRE_MINUTES →
      data.get "sub" = some (JValue.str sub_s) →
      data.get "aud" = none →
      data.get "at_hash" = none →
      (∀ v, data.get "nbf" = some v → ∃ n, pyInt v = some n ∧ n ≤ now) →
      (∀ v, data.get "jti" = some v → ∃ s, v = JValue.str s) →
      ∃ payload,
        decode_token st
            (TokenStr.encoded (create_access_token st data (some ttl) now)) now
          = .ok payload
        ∧ payload.get "sub" = some (JValue.str sub_s)
        ∧ payload.get "type" = some (JValue.str "access")
        ∧ ∃ e, verify_token_type payload "refresh" = .error e := by
  intro st data sub_s ttl now httl hmin hsub haud hath hnbf hjti
  obtain ⟨ex, hex⟩ : ∃ e : Int, (if ttl ≠ 0 then now + ttl
      else now + st.ACCESS_TOKEN_EXPIRE_MINUTES * 60) = e := ⟨_, rfl⟩
  have hexnow : ¬ ex < now := by
    rw [← hex]
    by_cases h : ttl = 0
    · simp only [h, ne_eq, not_true_eq_false, if_false]
      omega
    · simp only [ne_eq, h, not_false_eq_true, if_true]
      omega
  refine ⟨((data.set "exp" (.num ex)).set "iat" (.num now)).set "type"
      (.str "access"), ?_, ?_, ?_, ?_⟩
  · set P := ((data.set "exp" (JValue.num ex)).set "iat"
        (JValue.num now)).set "type" (JValue.str "access") with hP
    have hPiat : P.get "iat" = some (JValue.num now) := by
      rw [hP, Claims.get_set_ne _ _ _ _ (by decide), Claims.get_set_same]
    have hPexp : P.get "exp" = some (JValue.num ex) := by
      rw [hP, Claims.get_set_ne _ _ _ _ (by decide),
        Claims.get_set_ne _ _ _ _ (by decide), Claims.get_set_same]
    have hPother : ∀ k, k ≠ "exp" → k ≠ "iat" → k ≠ "type" →
        P.get k = data.get k := by
      intro k h1 h2 h3
      rw [hP, Claims.get_set_ne _ _ _ _ h3, Claims.get_set_ne _ _ _ _ h2,
        Claims.get_set_ne _ _ _ _ h1]
    have v_iat : validate_iat P = .ok () := by
      simp [validate_iat, hPiat, pyInt]
    have v_nbf : validate_nbf P now = .ok () := by
      have hk := hPother "nbf" (by decide) (by decide) (by decide)
      cases h : data.get "nbf" with
      | none => simp [validate_nbf, hk, h]
      | some v =>
          obtain ⟨n, hn, hle⟩ := hnbf v h
          simp only [validate_nbf, hk, h, hn]
          rw [if_neg (by omega)]
    have v_exp : validate_exp P now = .ok () := by
      simp only [validate_exp, hPexp, pyInt]
      rw [if_neg hexnow]
    have v_aud : validate_aud P = .ok () := by
      have hk := hPother "aud" (by decide) (by decide) (by decide)
      simp [validate_aud, hk, haud]
    have v_sub : validate_sub P = .ok () := by
      have hk := hPother "sub" (by decide) (by decide) (by decide)
      simp [validate_sub, hk, hsub]
    have v_jti : validate_jti P = .ok () := by
      have hk := hPother "jti" (by decide) (by decide) (by decide)
      cases h : data.get "jti" with
      | none => simp [validate_jti, hk, h]
      | some v =>
          obtain ⟨s, rfl⟩ := hjti v h
          simp [validate_jti, hk, h]
    have v_ath : validate_at_hash P = .ok () := by
      have hk := hPother "at_hash" (by decide) (by decide) (by decide)
      simp [validate_at_hash, hk, hath]
    simp only [decode_token, create_access_token, hex, jose_decode, ← hP,
      List.mem_singleton, and_self, eq_self_iff_true, if_true, if_pos,
      v_iat, v_nbf, v_exp, v_aud, v_sub, v_jti, v_ath]
  · rw [Claims.get_set_ne _ _ _ _ (by decide),
      Claims.get_set_ne _ _ _ _ (by decide),
      Claims.get_set_ne _ _ _ _ (by decide), hsub]
  · rw [Claims.get_set_same]
  · refine ⟨AuthenticationError ("Invalid token type. Expected " ++ "refresh"
        ++ ", got " ++ pyShow (some (JValue.str "access"))), ?_⟩
    rw [verify_token_type, Claims.get_set_same, if_neg (by decide)]

/-- Witness for C4 (amended) at a concrete claim map, ttl and clock. -/
theorem access_token_round_trip_witness :
    ∃ payload,
      decode_token testSettings
          (TokenStr.encoded (create_access_token testSettings
            [("sub", JValue.str "42")] (some 300) 1000)) 1000
        = .ok payload
      ∧ payload.get "sub" = some (JValue.str "42")
      ∧ payload.get "type" = some (JValue.str "access")
      ∧ ∃ e, verify_token_type payload "refresh" = .error e :=
  access_token_round_trip testSettings [("sub", JValue.str "42")]
    "42" 300 1000 (by decide) (by decide) (by decide) (by decide) (by decide)
    (fun v h => by simp [Claims.get] at h)
    (fun v h => by simp [Claims.get] at h)

/-- C5 counterexample: an access token issued at clock 700 with a
300-second ttl has `exp = 1000`; at clock 1000 — `exp` exactly "now" —
`is_token_expired` returns `false`, because the source compares with
strict `<` (`expiry < datetime.now`) and the decoder accepts
`exp == now`.  The claim states such a token is treated as expired. -/
theorem is_token_expired_boundary_counterexample :
    is_token_expired testSettings
      (TokenStr.encoded (create_access_token testSettings
        [("sub", JValue.str "42")] (some 300) 700)) 1000 = false := by
  decide

/-- C5 (amended): `is_token_expired` returns true when the token's expiry
cannot be obtained (undecodable, invalid, or absent/zero `exp` — the
decode failure is swallowed by `get_token_expiry`), and when an expiry is
obtained it returns true exactly when the expiry is *strictly* before the
current instant; a token whose `exp` equals the current instant exactly
is treated as not expired. -/
theorem is_token_expired_characterization :
    ∀ (st : Settings) (token : TokenStr) (now : Int),
      (∀ e, decode_token st token now = .error e →
        is_token_expired st token now = true)
      ∧ (get_token_expiry st token now = none →
        is_token_expired st token now = true)
      ∧ (∀ t, get_token_expiry st token now = some t →
        (is_token_expired st token now = true ↔ t < now)) := by
  intro st token now
  refine ⟨?_, ?_, ?_⟩
  · intro e he
    simp [is_token_expired, get_token_expiry, he]
  · intro h
    simp [is_token_expired, h]
  · intro t ht
    simp [is_token_expired, ht]

/-- Witness for C5 (amended): an undecodable token string is expired, and
a token expiring at 1500 checked at clock 1000 is expired iff
`1500 < 1000`. -/
theorem is_token_expired_characterization_witness :
    is_token_expired testSettings (TokenStr.malformed "garbage") 1000 = true
    ∧ (is_token_expired testSettings
        (TokenStr.encoded (create_access_token testSettings
          [("sub", JValue.str "1")] (some 500) 1000)) 1000 = true
        ↔ (1500 : Int) < 1000) :=
  ⟨(is_token_expired_characterization testSettings
      (TokenStr.malformed "garbage") 1000).2.1 (by decide),
   (is_token_expired_characterization testSettings
      (TokenStr.encoded (create_access_token testSettings
        [("sub", JValue.str "1")] (some 500) 1000)) 1000).2.2 1500 (by decide)⟩

/-- C7 counterexample: `get_current_user_id` performs no token-type
verification — a *refresh* token carrying `sub = "7"` is accepted and
yields user id 7, although `verify_token_type` of its payload against
`"access"` raises; the claim states the call must fail with
`AuthenticationError` in this situation. -/
theorem get_current_user_id_accepts_refresh_token :
    get_current_user_id testSettings
      (TokenStr.encoded (create_refresh_token testSettings
        [("sub", JValue.str "7")] none 1000)) 1000 = .ok 7
    ∧ ∃ e, verify_token_type
        (create_refresh_token testSettings
          [("sub", JValue.str "7")] none 1000).claims "access" = .error e :=
  ⟨rfl,
   ⟨AuthenticationError ("Invalid token type. Expected " ++ "access"
      ++ ", got " ++ pyShow (some (JValue.str "refresh"))), rfl⟩⟩

/-- C7 (amended): `get_current_user_id` fails with `AuthenticationError`
when the token string is empty, when decoding fails, and when the decoded
payload's `sub` claim is absent (or falsy); otherwise — with *no*
token-type verification, so regardless of the token's `type` claim — it
returns the integer subject identity. -/
theorem get_current_user_id_characterization :
    ∀ (st : Settings) (token : TokenStr) (now : Int),
      (token.isEmptyStr = true →
        get_current_user_id st token now =
          .authError (AuthenticationError "Not authenticated"))
      ∧ (∀ e, token.isEmptyStr = false →
        decode_token st token now = .error e →
        get_current_user_id st token now = .authError e)
      ∧ (∀ payload, token.isEmptyStr = false →
        decode_token st token now = .ok payload →
        payload.get "sub" = none →
        get_current_user_id st token now =
          .authError (AuthenticationError "Invalid token payload"))
      ∧ (∀ payload v n, token.isEmptyStr = false →
        decode_token st token now = .ok payload →
        payload.get "sub" = some v → v.truthy = true → pyInt v = some n →
        get_current_user_id st token now = .ok n) := by
  intro st token now
  refine ⟨?_, ?_, ?_, ?_⟩
  · intro h
    simp [get_current_user_id, h]
  · intro e hne hd
    simp [get_current_user_id, hne, hd]
  · intro payload hne hd hsub
    simp [get_current_user_id, hne, hd, hsub]
  · intro payload v n hne hd hsub htr hint
    simp [get_current_user_id, hne, hd, hsub, htr, hint]

/-- Witness for C7 (amended): an empty token string is rejected as not
authenticated, and a decodable access token with `sub = "7"` yields user
id 7. -/
theorem get_current_user_id_characterization_witness :
    get_current_user_id testSettings (TokenStr.malformed "") 0 =
      .authError (AuthenticationError "Not authenticated")
    ∧ get_current_user_id testSettings
        (TokenStr.encoded (create_access_token testSettings
          [("sub", JValue.str "7")] (some 60) 1000)) 1000 = .ok 7 :=
  ⟨(get_current_user_id_characterization testSettings
      (TokenStr.malformed "") 0).1 rfl,
   (get_current_user_id_characterization testSettings
      (TokenStr.encoded (create_access_token testSettings
        [("sub", JValue.str "7")] (some 60) 1000)) 1000).2.2.2
      (create_access_token testSettings
        [("sub", JValue.str "7")] (some 60) 1000).claims
      (JValue.str "7") 7 rfl rfl rfl rfl rfl⟩

end NexusHub
